import Mathlib

/-!
Verification of the natural-language specification of the `n8n-auto-apply`
repository against a shallow embedding of `src/agents/auto_apply.py`.

The embedding translates the pure decision logic of the auto-apply module:
the `QAMemoryBank` question cache, the inline question-resolution blocks of
`handle_all_questions`, `detect_ats`, the ats-type field of `apply_to_job`,
`_parse_posted_time` / `get_next_job` priority selection, and the submit-button
guard plus click-escalation ladder of `apply_ashby`.  Browser effects
(Playwright calls) are abstracted as explicit inputs: page URLs and contents
are strings, element states are records, and the LLM collaborator is an
`Except`-valued oracle (`.error` models a raised exception).  Python floats
are modelled as exact rationals.
-/

set_option autoImplicit false

namespace AutoApply

/-- Characterwise prefix test: `leadEq n h = true` iff the char list `n`
is an initial run of `h`.  Building block for Python's `in` operator. -/
def leadEq : List Char → List Char → Bool
  | [], _ => true
  | _ :: _, [] => false
  | a :: as, b :: bs => a == b && leadEq as bs

/-- `hasSubAux n h = true` iff `n` occurs as a contiguous run inside `h`. -/
def hasSubAux (n : List Char) : List Char → Bool
  | [] => n.isEmpty
  | c :: t => leadEq n (c :: t) || hasSubAux n t

/-- Python's substring operator `n in h` on strings. -/
def occursIn (h n : String) : Bool := hasSubAux n.data h.data

/-- Python `s.lower()` (ASCII case folding via `Char.toLower`). -/
def lowerStr (s : String) : String := ⟨s.data.map Char.toLower⟩

/-- Python `s.strip()`: drop whitespace from both ends. -/
def stripStr (s : String) : String :=
  ⟨((s.data.dropWhile Char.isWhitespace).reverse.dropWhile Char.isWhitespace).reverse⟩

/-- Python `s.lower().strip()`, the key normalization used by `QAMemoryBank`
(`auto_apply.py` lines 105, 120) and `handle_all_questions` (lines 939, 1011, 1098). -/
def lowerTrim (s : String) : String := stripStr (lowerStr s)

/-- One cached Q&A entry: `auto_apply.py` lines 85-89 / 120-124 store
`{"answer": ..., "context": ..., "use_count": ...}` per normalized question. -/
structure QAEntry where
  answer : String
  context : String
  useCount : Nat
  deriving DecidableEq, Repr

/-- The `QAMemoryBank.cache` dict, as an insertion-ordered association list
(Python dicts preserve insertion order, and overwriting keeps the position). -/
abbrev QACache := List (String × QAEntry)

/-- Exact-key dict lookup `self.cache[q]`. -/
def cacheLookup (c : QACache) (k : String) : Option QAEntry :=
  (c.find? (fun p => p.1 == k)).map (·.2)

/-- Dict assignment `self.cache[k] = e`: overwrite in place or append. -/
def upsert : QACache → String → QAEntry → QACache
  | [], k, e => [(k, e)]
  | p :: t, k, e => if p.1 == k then (k, e) :: t else p :: upsert t k e

/-- `QAMemoryBank._similar_question` (lines 139-148): two questions are
similar when some key phrase occurs in both. -/
def similar_question (q1 q2 : String) : Bool :=
  ["why", "interest", "experience", "salary", "start", "location"].any
    (fun phrase => occursIn q1 phrase && occursIn q2 phrase)

/-- `QAMemoryBank.get_answer` (lines 103-116): normalize, try the exact key,
then fall through to the first fuzzy (phrase-based) match in insertion order. -/
def get_answer (c : QACache) (q : String) : Option String :=
  let ql := lowerTrim q
  match cacheLookup c ql with
  | some e => some e.answer
  | none => (c.find? (fun p => similar_question ql p.1)).map (fun p => p.2.answer)

/-- `QAMemoryBank.save_answer` (lines 118-137): store under the normalized
key with use_count 1 (the sheet append is an external side effect). -/
def save_answer (c : QACache) (q a ctx : String) : QACache :=
  upsert c (lowerTrim q) ⟨a, ctx, 1⟩

/-- `LinkedInAutoApply.fallback_answer` (lines 1203-1220): canned answers
keyed by substring tests on the lower-cased question. -/
def fallback_answer (question : String) : String :=
  let q := lowerStr question
  if occursIn q "why" && (occursIn q "interested" || occursIn q "apply") then
    "I\x27m excited about this role because it aligns perfectly with my experience in product management and my passion for building innovative solutions. The opportunity to contribute to your team\x27s mission while growing my skills in this area is exactly what I\x27m looking for."
  else if occursIn q "salary" || occursIn q "compensation" then
    "I\x27m open to discussing compensation based on the full scope of the role and total compensation package. I\x27m confident we can find a mutually beneficial arrangement."
  else if occursIn q "start" || occursIn q "available" then
    "I can start within 2-3 weeks of accepting an offer, allowing time for a smooth transition."
  else if occursIn q "visa" || occursIn q "authorization" then
    "I am authorized to work in the EU (Germany) and am exploring opportunities that may offer visa sponsorship for other locations."
  else
    "I would be happy to discuss this further during the interview process."

/-- Free-text question resolution, the inline block of `handle_all_questions`
(lines 938-977): build `mem_key`, consult memory (`if not answer:` treats an
empty cached string as a miss), on miss ask the LLM — an exception (`.error`)
is caught and downgraded to `fallback_answer` — then save.  Returns
(answer, cache after, llm-invoked flag, saved flag). -/
def resolveFreeText (c : QACache) (llm : Except String String) (label ctx : String) :
    String × QACache × Bool × Bool :=
  let mem_key := lowerTrim label
  let cached := (get_answer c mem_key).getD ""
  if cached == "" then
    let answer :=
      match llm with
      | .ok resp => stripStr resp
      | .error _ => fallback_answer label
    (answer, save_answer c mem_key answer ctx, true, true)
  else
    (cached, c, false, false)

/-- Memory key for a choice question: `label.lower().strip() + "||" + "|".join(options)`
(lines 1011 and 1098). -/
def choiceKey (label : String) (options : List String) : String :=
  lowerTrim label ++ "||" ++ String.intercalate "|" options

/-- Choice-question resolution, the identical inline blocks for dropdowns
(lines 1010-1055) and radio groups (lines 1096-1137): skip when the gathered
option list is empty, consult memory under `choiceKey`, on miss ask the LLM
and keep the first option text related to the reply by the case-insensitive
either-contains test; `if not ai_choice:` then defaults to `options[0]` when
the LLM raised, no option matched, or the matched option text is empty
(Python truthiness).  Returns `some (answer, cache after, llm-invoked, saved)`. -/
def resolveChoice (c : QACache) (llm : Except String String) (label : String)
    (options : List String) (ctx : String) :
    Option (String × QACache × Bool × Bool) :=
  if options.isEmpty then none
  else
    let opt_key := choiceKey label options
    let cached := (get_answer c opt_key).getD ""
    if cached == "" then
      let ai_choice : Option String :=
        match llm with
        | .ok resp =>
          options.find? (fun txt =>
            occursIn (lowerStr txt) (lowerStr (stripStr resp)) ||
            occursIn (lowerStr (stripStr resp)) (lowerStr txt))
        | .error _ => none
      let answer_text :=
        if ai_choice.getD "" == "" then options.headD "" else ai_choice.getD ""
      some (answer_text, save_answer c opt_key answer_text ctx, true, true)
    else
      some (cached, c, false, false)

/-- `LinkedInAutoApply.detect_ats` (lines 444-474): URL substring checks in a
fixed order, then content-based fallback, else `"unknown"`.  The source
computes `page.url.lower()` once and `content.lower()` once; inlining the
lowering at each test is an identical computation.  The `try/except` around
`page.content()` only guards the browser call, which the embedding replaces
by the `content` argument. -/
def detect_ats (url content : String) : String :=
  if occursIn (lowerStr url) "ashbyhq.com" then "ashby"
  else if occursIn (lowerStr url) "greenhouse.io" || occursIn (lowerStr url) "boards.greenhouse" then "greenhouse"
  else if occursIn (lowerStr url) "myworkdayjobs.com" then "workday"
  else if occursIn (lowerStr url) "lever.co" then "lever"
  else if occursIn (lowerStr url) "bamboohr.com" then "bamboohr"
  else if occursIn (lowerStr content) "ashby" && occursIn (lowerStr content) "ashbyhq" then "ashby"
  else if occursIn (lowerStr content) "greenhouse" then "greenhouse"
  else if occursIn (lowerStr content) "workday" then "workday"
  else "unknown"

/-- True iff some vendor substring of the URL phase of `detect_ats` matches,
i.e. the content-based fallback is not reached. -/
def urlVendorMatch (url : String) : Bool :=
  occursIn (lowerStr url) "ashbyhq.com" || occursIn (lowerStr url) "greenhouse.io" ||
  occursIn (lowerStr url) "boards.greenhouse" || occursIn (lowerStr url) "myworkdayjobs.com" ||
  occursIn (lowerStr url) "lever.co" || occursIn (lowerStr url) "bamboohr.com"

/-- The spec's ApplicationResult atsType enum (spec section 3). -/
def atsEnum : List String := ["ashby", "greenhouse", "workday", "lever", "bamboohr", "unknown"]

/-- The `ats_type` field computed by `LinkedInAutoApply.apply_to_job`
(lines 334-442): initialized `"unknown"`; if the initially loaded page
already detects as ashby it stays `"ashby"`; else an Easy Apply button sets
`"linkedin_easy"` (line 387); else, when an Apply button exists, the field is
`detect_ats` of the newly opened page; with no Apply button it stays
`"unknown"`.  An exception leaves whatever value was last assigned, so the
set of reachable values is unchanged. -/
def apply_to_job_ats (iurl icontent : String) (easyApplyBtn applyBtn : Bool)
    (nurl ncontent : String) : String :=
  if detect_ats iurl icontent = "ashby" then "ashby"
  else if easyApplyBtn then "linkedin_easy"
  else if applyBtn then detect_ats nurl ncontent
  else "unknown"

/-- Leading digit run of a char list (the characters matched by `re.search(r'(\d+)')`
at the start position). -/
def takeDigits : List Char → List Char
  | [] => []
  | c :: t => if c.isDigit then c :: takeDigits t else []

/-- Decimal value of a digit run. -/
def digitsToNat (l : List Char) : Nat :=
  l.foldl (fun acc c => acc * 10 + (c.toNat - 48)) 0

/-- First integer in a char list, as found by Python's `re.search(r'(\d+)', s)`:
the first maximal run of digits, or `none`. -/
def firstNatAux : List Char → Option Nat
  | [] => none
  | c :: t => if c.isDigit then some (digitsToNat (c :: takeDigits t)) else firstNatAux t

/-- `int(re.search(r'(\d+)', s).group(1))` with a `none` for no match. -/
def firstNat (s : String) : Option Nat := firstNatAux s.data

/-- `LinkedInAutoApply._parse_posted_time` (lines 321-332). -/
def parse_posted_time (t : String) : Nat :=
  if occursIn t "hour" then 0
  else if occursIn t "day" then (firstNat t).getD 1
  else if occursIn t "week" then
    match firstNat t with
    | some n => n * 7
    | none => 7
  else 30

/-- The priority formula of `get_next_job` (line 302):
`score * 0.7 + (10 - min(posted_days, 10)) * 0.3`, floats as exact rationals. -/
def jobPriority (score : ℚ) (postedTime : String) : ℚ :=
  score * (7 / 10) + (10 - min ((parse_posted_time postedTime : ℚ)) 10) * (3 / 10)

/-- One sheet row as consumed by `get_next_job` (status, score, posted time). -/
structure JobRecord where
  status : String
  score : ℚ
  postedTime : String
  deriving DecidableEq, Repr

/-- The Ready filter of `get_next_job` (line 298). -/
def isReady (r : JobRecord) : Bool := r.status == "unknown" || r.status == "Ready"

/-- Head of a stable descending sort by priority: the earliest record of
maximal priority (Python's `list.sort(key=..., reverse=True)` is stable, so
`ready_jobs[0]` after sorting is the first record attaining the maximum). -/
def pickMax : List JobRecord → Option JobRecord
  | [] => none
  | j :: t =>
    match pickMax t with
    | none => some j
    | some b => if jobPriority b.score b.postedTime > jobPriority j.score j.postedTime then some b else some j

/-- `LinkedInAutoApply.get_next_job` (lines 285-319), minus the sheet I/O:
filter rows whose Status is `"unknown"` or `"Ready"`, sort by the priority
formula descending (stable), return the first. -/
def get_next_job (rows : List JobRecord) : Option JobRecord :=
  pickMax (rows.filter isReady)

/-- The four click strategies of the `apply_ashby` submission ladder
(lines 669-741), in source order. -/
inductive ClickStrategy where
  | normal
  | forced
  | js
  | double
  deriving DecidableEq, Repr

/-- Behaviour of the page under one click strategy: `none` models an exception
raised inside the strategy's `try` block (caught at lines 686-687, 705-706,
724-725, 740-741, so the URL comparison never runs); `some u` means the URL
read after the settle delay is `u`. -/
abbrev ClickEnv := ClickStrategy → Option String

/-- Whether a strategy sets `submission_successful`: the post-click URL was
read and differs from the pre-submission URL (lines 680, 699, 718, 735). -/
def clickOutcome (pre : String) (env : ClickEnv) (s : ClickStrategy) : Bool :=
  match env s with
  | none => false
  | some u => u != pre

/-- One guarded strategy block: runs only while `submission_successful` is
still false, records the attempt, and updates the success flag from the
URL comparison. -/
def escalationStep (pre : String) (env : ClickEnv) (s : ClickStrategy)
    (st : Bool × List ClickStrategy) : Bool × List ClickStrategy :=
  if st.1 then st
  else (clickOutcome pre env s, st.2 ++ [s])

/-- The whole escalation ladder of `apply_ashby` (lines 669-741): strategy 1
runs unconditionally (the flag starts false), each later block is guarded by
`if not submission_successful`.  Returns the final flag and the list of
attempted strategies in order. -/
def runEscalation (pre : String) (env : ClickEnv) : Bool × List ClickStrategy :=
  escalationStep pre env .double
    (escalationStep pre env .js
      (escalationStep pre env .forced
        (escalationStep pre env .normal (false, []))))

/-- The strategies actually attempted by the ladder, in order. -/
def attemptedStrategies (pre : String) (env : ClickEnv) : List ClickStrategy :=
  (runEscalation pre env).2

/-- Reported state of the located submit control (lines 643-645):
`is_visible()`, `is_enabled()`, and the Python truthiness of
`get_attribute("disabled")`. -/
structure SubmitButton where
  visible : Bool
  enabled : Bool
  disabledAttr : Bool
  deriving DecidableEq, Repr

/-- Observable driver actions during the submission phase. -/
inductive SubmitEvent where
  | screenshot
  | click (s : ClickStrategy)
  deriving DecidableEq, Repr

/-- The submission phase of `apply_ashby` (lines 621-786): no submit control
found → screenshot and `False` (lines 629-634); control found but not
visible / not enabled / truthy disabled attribute → screenshot and `False`
with no click (lines 649-662); otherwise run the click ladder and decide the
outcome from the success-indicator disjunction (`signals`, lines 748-760),
capturing a screenshot either way (lines 766, 783).  Returns
(returned bool, events in order). -/
def submitPhase (btn : Option SubmitButton) (pre : String) (env : ClickEnv)
    (signals : Bool) : Bool × List SubmitEvent :=
  match btn with
  | none => (false, [.screenshot])
  | some b =>
    if !b.visible || !b.enabled || b.disabledAttr then (false, [.screenshot])
    else
      let evs := (attemptedStrategies pre env).map SubmitEvent.click
      (signals, evs ++ [.screenshot])

/-! ## Helper lemmas -/

theorem leadEq_trans : ∀ (a b s : List Char), leadEq a b = true → leadEq b s = true →
    leadEq a s = true
  | [], _, _, _, _ => rfl
  | _ :: _, [], _, h1, _ => by simp [leadEq] at h1
  | _ :: _, _ :: _, [], _, h2 => by simp [leadEq] at h2
  | a :: as, b :: bs, s :: ss, h1, h2 => by
    simp only [leadEq, Bool.and_eq_true, beq_iff_eq] at h1 h2 ⊢
    exact ⟨h1.1.trans h2.1, leadEq_trans as bs ss h1.2 h2.2⟩

theorem hasSubAux_mono (a b : List Char) (hab : leadEq a b = true) :
    ∀ h : List Char, hasSubAux b h = true → hasSubAux a h = true := by
  intro h
  induction h with
  | nil =>
    intro hb
    simp only [hasSubAux, List.isEmpty_iff] at hb
    subst hb
    cases a with
    | nil => rfl
    | cons x xs => simp [leadEq] at hab
  | cons c t ih =>
    intro hb
    simp only [hasSubAux, Bool.or_eq_true] at hb ⊢
    rcases hb with hb | hb
    · exact Or.inl (leadEq_trans a b (c :: t) hab hb)
    · exact Or.inr (ih hb)

/-- If `n1` is a leading run of `n2`, any string containing `n2` contains `n1`. -/
theorem occursIn_mono (h n1 n2 : String) (hn : leadEq n1.data n2.data = true)
    (hocc : occursIn h n2 = true) : occursIn h n1 = true :=
  hasSubAux_mono n1.data n2.data hn h.data hocc

theorem cacheLookup_upsert : ∀ (c : QACache) (k : String) (e : QAEntry),
    cacheLookup (upsert c k e) k = some e
  | [], k, e => by simp [cacheLookup, upsert, List.find?]
  | p :: t, k, e => by
    by_cases h : p.1 == k
    · simp [cacheLookup, upsert, h, List.find?]
    · simp only [upsert, h, Bool.false_eq_true, if_false]
      simp only [cacheLookup, List.find?, h]
      exact cacheLookup_upsert t k e

/-- After `save_answer`, looking the same key up again hits the exact-match
branch and returns the saved answer. -/
theorem get_answer_save (c : QACache) (k a ctx : String) :
    get_answer (save_answer c k a ctx) k = some a := by
  simp [get_answer, save_answer, cacheLookup_upsert]

theorem detect_ats_mem_atsEnum (u c : String) : detect_ats u c ∈ atsEnum := by
  unfold detect_ats
  repeat' split
  all_goals simp [atsEnum]

/-- A cache hit with a non-empty answer makes `resolveChoice` return the
cached answer with the cache unchanged and no LLM invocation. -/
theorem resolveChoice_hit (c : QACache) (llm : Except String String) (label : String)
    (o : String) (os : List String) (ctx a : String)
    (hget : get_answer c (choiceKey label (o :: os)) = some a) (ha : a ≠ "") :
    resolveChoice c llm label (o :: os) ctx = some (a, c, false, false) := by
  simp [resolveChoice, hget, ha]

/-- On a cache miss (or an empty cached answer), `resolveChoice` computes some
answer drawn from the option list, saves it under the choice key, and reports
the LLM as invoked. -/
theorem resolveChoice_miss (c : QACache) (llm : Except String String) (label : String)
    (o : String) (os : List String) (ctx : String)
    (hmiss : (get_answer c (choiceKey label (o :: os))).getD "" = "") :
    ∃ ans, resolveChoice c llm label (o :: os) ctx =
      some (ans, save_answer c (choiceKey label (o :: os)) ans ctx, true, true) ∧
      ans ∈ o :: os := by
  cases llm with
  | error e =>
    exact ⟨o, by simp [resolveChoice, hmiss], List.mem_cons_self o os⟩
  | ok resp =>
    rcases hf : (o :: os).find? (fun txt =>
        occursIn (lowerStr txt) (lowerStr (stripStr resp)) ||
        occursIn (lowerStr (stripStr resp)) (lowerStr txt)) with - | txt
    · exact ⟨o, by simp [resolveChoice, hmiss, hf], List.mem_cons_self o os⟩
    · by_cases ht : txt = ""
      · exact ⟨o, by simp [resolveChoice, hmiss, hf, ht], List.mem_cons_self o os⟩
      · exact ⟨txt, by simp [resolveChoice, hmiss, hf, ht], List.mem_of_find?_eq_some hf⟩

/-! ## Claim theorems -/

/-- C1 counterexample: a free-text question whose normalized key
(`"why apply here"`) gets its answer from a fuzzy cache hit on a different
stored key (`"why join the company"`).  The answerer returns without saving
(saved flag `false`) and the resolved question's own key is absent from the
cache afterwards — so the (key → answer) pair is not persisted for every
resolved question, contrary to the claim. -/
theorem qa_fuzzy_hit_not_persisted :
    resolveFreeText (save_answer [] "why join the company" "A" "") (.ok "B") "Why apply here" "ctx" =
      ("A", save_answer [] "why join the company" "A" "", false, false) ∧
    cacheLookup
      (resolveFreeText (save_answer [] "why join the company" "A" "") (.ok "B") "Why apply here" "ctx").2.1
      (lowerTrim "Why apply here") = none ∧
    lowerTrim "Why apply here" ≠ lowerTrim "why join the company" := by decide

/-- C1 amended: for free-text, dropdown and radio questions alike, the
(key → answer) pair is persisted before returning exactly when the memory
lookup missed (returned nothing, or an empty string, which `if not answer:`
treats as a miss) — i.e. when the answer came from the LLM or the canned
fallback — and the saved pair is then retrievable under the question's key.
On a cache hit either resolver returns with the cache unchanged, so an
exact-key hit leaves the pair in place (a no-op) but a fuzzy hit leaves the
queried key unsaved. -/
theorem qa_persist_exactly_on_miss (c : QACache) (llm : Except String String)
    (label ctx o : String) (os : List String) :
    ((get_answer c (lowerTrim label)).getD "" = "" →
      (resolveFreeText c llm label ctx).2.2.2 = true ∧
      get_answer (resolveFreeText c llm label ctx).2.1 (lowerTrim label) =
        some (resolveFreeText c llm label ctx).1) ∧
    (∀ a, get_answer c (lowerTrim label) = some a → a ≠ "" →
      resolveFreeText c llm label ctx = (a, c, false, false)) ∧
    ((get_answer c (choiceKey label (o :: os))).getD "" = "" →
      ∃ ans, resolveChoice c llm label (o :: os) ctx =
        some (ans, save_answer c (choiceKey label (o :: os)) ans ctx, true, true) ∧
        get_answer (save_answer c (choiceKey label (o :: os)) ans ctx)
          (choiceKey label (o :: os)) = some ans) ∧
    (∀ a, get_answer c (choiceKey label (o :: os)) = some a → a ≠ "" →
      resolveChoice c llm label (o :: os) ctx = some (a, c, false, false)) := by
  refine ⟨?_, ?_, ?_, ?_⟩
  · intro hmiss
    simp only [resolveFreeText, hmiss]
    simp [get_answer_save]
  · intro a ha hne
    simp [resolveFreeText, ha, hne]
  · intro hmiss
    obtain ⟨ans, heq, -⟩ := resolveChoice_miss c llm label o os ctx hmiss
    exact ⟨ans, heq, get_answer_save c (choiceKey label (o :: os)) ans ctx⟩
  · intro a ha hne
    exact resolveChoice_hit c llm label o os ctx a ha hne

/-- C1 witness: on a fresh cache both a free-text and a choice question miss,
the saved flag is set and the key → answer pair is retrievable afterwards. -/
theorem qa_persist_exactly_on_miss_witness :
    ((resolveFreeText [] (.ok "Shipped three products") "Describe your experience" "X").2.2.2 = true ∧
      get_answer (resolveFreeText [] (.ok "Shipped three products") "Describe your experience" "X").2.1
        (lowerTrim "Describe your experience") =
        some (resolveFreeText [] (.ok "Shipped three products") "Describe your experience" "X").1) ∧
    (∃ ans, resolveChoice [] (.ok "Shipped three products") "Describe your experience"
        ["Alpha", "Beta"] "X" =
        some (ans, save_answer [] (choiceKey "Describe your experience" ["Alpha", "Beta"]) ans "X",
          true, true) ∧
        get_answer (save_answer [] (choiceKey "Describe your experience" ["Alpha", "Beta"]) ans "X")
          (choiceKey "Describe your experience" ["Alpha", "Beta"]) = some ans) := by
  have h := qa_persist_exactly_on_miss [] (.ok "Shipped three products")
    "Describe your experience" "X" "Alpha" ["Beta"]
  exact ⟨h.1 (by decide), h.2.2.1 (by decide)⟩

/-- C2 counterexample: a job page that is not an ATS page but shows an
Easy Apply button makes `apply_to_job` return `ats_type = "linkedin_easy"`
(`auto_apply.py` line 387), a value outside the spec's atsType enum. -/
theorem ats_type_linkedin_easy_outside_enum :
    apply_to_job_ats "https://www.linkedin.com/jobs/view/42" "" true false "" "" =
      "linkedin_easy" ∧
    "linkedin_easy" ∉ atsEnum := by decide

/-- C2 amended: the `ats_type` field of the result of `apply_to_job` is drawn
from the spec's enum extended with `"linkedin_easy"`, the value assigned when
a LinkedIn Easy Apply button is found. -/
theorem apply_to_job_ats_mem (iurl icontent : String) (easy applyB : Bool)
    (nurl ncontent : String) :
    apply_to_job_ats iurl icontent easy applyB nurl ncontent ∈ atsEnum ++ ["linkedin_easy"] := by
  unfold apply_to_job_ats
  split
  · simp [atsEnum]
  · split
    · simp [atsEnum]
    · split
      · exact List.mem_append_left _ (detect_ats_mem_atsEnum nurl ncontent)
      · simp [atsEnum]

/-- C3 counterexample: a URL containing `boards.greenhouse.io` whose content
mentions `"ashby"` (but not `"ashbyhq"`) for which `detect_ats` returns
`"ashby"`, not `"greenhouse"`: the URL also contains `ashbyhq.com`, which is
checked earlier in the fixed order, so the claim's universal statement fails. -/
theorem detect_ats_url_order_counterexample :
    occursIn (lowerStr "https://jobs.ashbyhq.com/x?from=boards.greenhouse.io")
      "boards.greenhouse.io" = true ∧
    occursIn (lowerStr "ashby platform") "ashby" = true ∧
    occursIn (lowerStr "ashby platform") "ashbyhq" = false ∧
    detect_ats "https://jobs.ashbyhq.com/x?from=boards.greenhouse.io" "ashby platform" =
      "ashby" := by decide

/-- C3 amended: the URL-first precedence holds provided no earlier-checked
vendor substring occurs in the URL: with `ashbyhq.com` absent, a URL
containing `boards.greenhouse.io` yields `"greenhouse"` whatever the content;
with `ashbyhq.com`, `greenhouse.io` and `boards.greenhouse` absent, a URL
containing `myworkdayjobs.com` yields `"workday"` whatever the content; and
when no URL substring matches at all, the content fallback classifies Ashby
iff both `"ashby"` and `"ashbyhq"` occur in the content. -/
theorem detect_ats_precedence_amended (url content : String) :
    (occursIn (lowerStr url) "boards.greenhouse.io" = true →
      occursIn (lowerStr url) "ashbyhq.com" = false →
      detect_ats url content = "greenhouse") ∧
    (occursIn (lowerStr url) "myworkdayjobs.com" = true →
      occursIn (lowerStr url) "ashbyhq.com" = false →
      occursIn (lowerStr url) "greenhouse.io" = false →
      occursIn (lowerStr url) "boards.greenhouse" = false →
      detect_ats url content = "workday") ∧
    (urlVendorMatch url = false →
      (detect_ats url content = "ashby" ↔
        occursIn (lowerStr content) "ashby" = true ∧
        occursIn (lowerStr content) "ashbyhq" = true)) := by
  refine ⟨?_, ?_, ?_⟩
  · intro h1 h2
    have hbg : occursIn (lowerStr url) "boards.greenhouse" = true :=
      occursIn_mono _ _ _ (by decide) h1
    simp [detect_ats, h2, hbg]
  · intro h1 h2 h3 h4
    simp [detect_ats, h1, h2, h3, h4]
  · intro h
    simp only [urlVendorMatch, Bool.or_eq_false_iff] at h
    obtain ⟨⟨⟨⟨⟨ha, hg⟩, hb⟩, hw⟩, hl⟩, hbam⟩ := h
    cases hA : occursIn (lowerStr content) "ashby" <;>
      cases hB : occursIn (lowerStr content) "ashbyhq" <;>
        simp only [detect_ats, ha, hg, hb, hw, hl, hbam, hA, hB] <;>
          (repeat' split) <;> simp_all

/-- C3 amended witness: a plain Greenhouse board URL with ashby-mentioning
content detects as greenhouse. -/
theorem detect_ats_precedence_amended_witness :
    detect_ats "https://boards.greenhouse.io/acme/jobs/1" "ashby" = "greenhouse" :=
  (detect_ats_precedence_amended "https://boards.greenhouse.io/acme/jobs/1" "ashby").1
    (by decide) (by decide)

/-- C4: the click-escalation ladder attempts strategies in the fixed order
normal, forced, script-invoked, double; a later strategy is attempted exactly
when no earlier strategy changed the URL (an exception inside a click is
caught and counts as unchanged, since the comparison never runs); escalation
stops at the first strategy whose post-click URL differs from the
pre-submission URL. -/
theorem click_escalation_order (pre : String) (env : ClickEnv) :
    attemptedStrategies pre env =
      (if clickOutcome pre env .normal then [.normal]
       else if clickOutcome pre env .forced then [.normal, .forced]
       else if clickOutcome pre env .js then [.normal, .forced, .js]
       else [.normal, .forced, .js, .double]) ∧
    (ClickStrategy.forced ∈ attemptedStrategies pre env ↔
      clickOutcome pre env .normal = false) ∧
    (ClickStrategy.js ∈ attemptedStrategies pre env ↔
      clickOutcome pre env .normal = false ∧ clickOutcome pre env .forced = false) ∧
    (ClickStrategy.double ∈ attemptedStrategies pre env ↔
      clickOutcome pre env .normal = false ∧ clickOutcome pre env .forced = false ∧
      clickOutcome pre env .js = false) := by
  cases hn : clickOutcome pre env .normal <;>
    cases hf : clickOutcome pre env .forced <;>
      cases hj : clickOutcome pre env .js <;>
        cases hd : clickOutcome pre env .double <;>
          simp [attemptedStrategies, runEscalation, escalationStep, hn, hf, hj, hd]

/-- C4 witness: a control that reacts only to the script-invoked click is
reached after normal and forced, and escalation stops there. -/
theorem click_escalation_order_witness :
    attemptedStrategies "u" (fun s => if s = ClickStrategy.js then some "v" else some "u") =
      [ClickStrategy.normal, ClickStrategy.forced, ClickStrategy.js] := by
  rw [(click_escalation_order "u"
    (fun s => if s = ClickStrategy.js then some "v" else some "u")).1]
  decide

/-- C5 counterexample: a choice question whose first gathered option text is
empty — reachable for radio groups, whose label texts are appended without a
non-emptiness check (`auto_apply.py` lines 1078-1091).  The first call misses,
defaults to `options[0] = ""` and saves it; on the second call the cached `""`
fails the `if not answer_text:` truthiness test, so the cache hit is treated
as a miss and the LLM is invoked again (third component `true`), refuting
"the second call performs no LLM invocation". -/
theorem qa_idempotence_counterexample :
    resolveChoice [] (.error "e1") "Which office?" ["", "Berlin"] "ctx" =
      some ("", save_answer [] (choiceKey "Which office?" ["", "Berlin"]) "" "ctx",
        true, true) ∧
    resolveChoice (save_answer [] (choiceKey "Which office?" ["", "Berlin"]) "" "ctx")
        (.ok "Berlin") "Which office?" ["", "Berlin"] "ctx" =
      some ("", save_answer [] (choiceKey "Which office?" ["", "Berlin"]) "" "ctx",
        true, true) := by decide

/-- C5 amended: restricted to choice questions whose gathered option texts are
all non-empty — guaranteed for dropdowns, which only collect options with
non-empty stripped inner text (lines 1002-1006), but not for radio groups —
once a first call on (label, options) has populated the cache, a second call
with the same (label, options) returns the identical answer with the cache
unchanged and performs no LLM invocation (third component false), for any
behaviour of the LLM on either call.  With an empty option text the saved
empty answer is treated as a miss on the second call and the LLM is invoked
again (see the counterexample). -/
theorem qa_answer_idempotent (c : QACache) (llm1 llm2 : Except String String)
    (label : String) (options : List String) (ctx1 ctx2 : String)
    (a1 : String) (c1 : QACache) (b1 s1 : Bool)
    (hopts : ∀ o ∈ options, o ≠ "")
    (h1 : resolveChoice c llm1 label options ctx1 = some (a1, c1, b1, s1)) :
    resolveChoice c1 llm2 label options ctx2 = some (a1, c1, false, false) := by
  cases options with
  | nil => simp [resolveChoice] at h1
  | cons o os =>
    by_cases hca : (get_answer c (choiceKey label (o :: os))).getD "" = ""
    · -- first call missed: the answer was computed and saved
      obtain ⟨ans, heq, hmem⟩ := resolveChoice_miss c llm1 label o os ctx1 hca
      rw [heq] at h1
      simp only [Option.some.injEq, Prod.mk.injEq] at h1
      obtain ⟨ha1, hc1, -, -⟩ := h1
      subst hc1
      subst ha1
      exact resolveChoice_hit _ llm2 label o os ctx2 ans
        (get_answer_save c (choiceKey label (o :: os)) ans ctx1)
        (hopts ans hmem)
    · -- first call hit the cache
      simp only [resolveChoice, List.isEmpty_cons, Bool.false_eq_true, if_false,
        beq_iff_eq, hca, if_false, Option.some.injEq, Prod.mk.injEq] at h1
      obtain ⟨ha1, hc1, -, -⟩ := h1
      subst hc1
      have hne1 : a1 ≠ "" := by
        intro h
        apply hca
        rw [ha1, h]
      have hget : get_answer c (choiceKey label (o :: os)) = some a1 := by
        rcases hg : get_answer c (choiceKey label (o :: os)) with - | v
        · rw [hg] at hca
          simp at hca
        · rw [hg] at ha1
          simp only [Option.getD_some] at ha1
          rw [ha1]
      exact resolveChoice_hit c llm2 label o os ctx2 a1 hget hne1

/-- C5 witness: a first call on a fresh cache answers a sponsorship dropdown
from the LLM; the second call returns the same answer from the cache even
though the LLM collaborator now raises. -/
theorem qa_answer_idempotent_witness :
    resolveChoice
      (save_answer [] (choiceKey "Do you require sponsorship?" ["Yes", "No"]) "No" "Acme - PM")
      (.error "transport down") "Do you require sponsorship?" ["Yes", "No"] "Acme - PM" =
      some ("No",
        save_answer [] (choiceKey "Do you require sponsorship?" ["Yes", "No"]) "No" "Acme - PM",
        false, false) :=
  qa_answer_idempotent [] (.ok "No") (.error "transport down") "Do you require sponsorship?"
    ["Yes", "No"] "Acme - PM" "Acme - PM" "No"
    (save_answer [] (choiceKey "Do you require sponsorship?" ["Yes", "No"]) "No" "Acme - PM")
    true true (by decide) (by decide)

/-- C6: on a cache miss, when the LLM reply matches none of the option texts
under the case-insensitive either-contains-the-other test, the choice
resolver returns exactly the first option `options[0]` (and saves it). -/
theorem choice_fallback_first_option (c : QACache) (label resp ctx : String)
    (o : String) (os : List String)
    (hmiss : (get_answer c (choiceKey label (o :: os))).getD "" = "")
    (hnomatch : ∀ t ∈ o :: os,
      occursIn (lowerStr t) (lowerStr (stripStr resp)) = false ∧
      occursIn (lowerStr (stripStr resp)) (lowerStr t) = false) :
    resolveChoice c (.ok resp) label (o :: os) ctx =
      some (o, save_answer c (choiceKey label (o :: os)) o ctx, true, true) := by
  have hfind : (o :: os).find? (fun txt =>
      occursIn (lowerStr txt) (lowerStr (stripStr resp)) ||
      occursIn (lowerStr (stripStr resp)) (lowerStr txt)) = none := by
    rw [List.find?_eq_none]
    intro x hx
    have hx2 := hnomatch x hx
    simp [hx2.1, hx2.2]
  simp [resolveChoice, hmiss, hfind]

/-- C6 witness: the reply "Seven" matches neither "1-5" nor "6-10", so the
resolver defaults to the first option. -/
theorem choice_fallback_first_option_witness :
    resolveChoice [] (.ok "Seven") "Preferred team size?" ["1-5", "6-10"] "Acme - PM" =
      some ("1-5", save_answer [] (choiceKey "Preferred team size?" ["1-5", "6-10"]) "1-5"
        "Acme - PM", true, true) :=
  choice_fallback_first_option [] "Preferred team size?" "Seven" "Acme - PM" "1-5" ["6-10"]
    (by decide) (by decide)

/-- C7: the worked scenario of the spec.  "2 days ago" parses to 2 days and
"3 weeks ago" to 21 days (capped at 10 inside the formula); with score 8 the
first job gets priority 8 and with score 9 the second gets 63/10 = 6.3; in
either list order `get_next_job` selects the first job despite its lower
score.  Python floats are modelled as exact rationals. -/
theorem job_priority_scenario :
    parse_posted_time "2 days ago" = 2 ∧
    parse_posted_time "3 weeks ago" = 21 ∧
    jobPriority 8 "2 days ago" = 8 ∧
    jobPriority 9 "3 weeks ago" = 63 / 10 ∧
    get_next_job [⟨"Ready", 8, "2 days ago"⟩, ⟨"Ready", 9, "3 weeks ago"⟩] =
      some ⟨"Ready", 8, "2 days ago"⟩ ∧
    get_next_job [⟨"Ready", 9, "3 weeks ago"⟩, ⟨"Ready", 8, "2 days ago"⟩] =
      some ⟨"Ready", 8, "2 days ago"⟩ := by
  have h2 : parse_posted_time "2 days ago" = 2 := by decide
  have h21 : parse_posted_time "3 weeks ago" = 21 := by decide
  have hA : jobPriority 8 "2 days ago" = 8 := by
    unfold jobPriority
    rw [h2]
    norm_num
  have hB : jobPriority 9 "3 weeks ago" = 63 / 10 := by
    unfold jobPriority
    rw [h21]
    norm_num
  refine ⟨h2, h21, hA, hB, ?_, ?_⟩
  · unfold get_next_job
    simp [isReady, pickMax, hA, hB]
    norm_num
  · unfold get_next_job
    simp [isReady, pickMax, hA, hB]
    norm_num

/-- C8: when the submit control is found but reported not visible, not
enabled, or carrying a (truthy) disabled attribute, the driver captures a
diagnostic screenshot and returns Failed, and no click strategy is attempted
on the control. -/
theorem submit_guard_blocks_clicks (b : SubmitButton) (pre : String) (env : ClickEnv)
    (signals : Bool)
    (h : b.visible = false ∨ b.enabled = false ∨ b.disabledAttr = true) :
    submitPhase (some b) pre env signals = (false, [SubmitEvent.screenshot]) ∧
    (∀ s : ClickStrategy, SubmitEvent.click s ∉ (submitPhase (some b) pre env signals).2) ∧
    SubmitEvent.screenshot ∈ (submitPhase (some b) pre env signals).2 := by
  have hcond : (!b.visible || !b.enabled || b.disabledAttr) = true := by
    rcases h with h | h | h <;> simp [h]
  have heq : submitPhase (some b) pre env signals = (false, [SubmitEvent.screenshot]) := by
    simp [submitPhase, hcond]
  refine ⟨heq, ?_, ?_⟩
  · intro s
    rw [heq]
    simp
  · rw [heq]
    simp

/-- C8 witness: a visible but disabled (not enabled) submit control
terminates the attempt with only a screenshot. -/
theorem submit_guard_blocks_clicks_witness :
    submitPhase (some ⟨true, false, false⟩) "u" (fun _ => some "v") true =
      (false, [SubmitEvent.screenshot]) :=
  (submit_guard_blocks_clicks ⟨true, false, false⟩ "u" (fun _ => some "v") true
    (Or.inr (Or.inl rfl))).1

/-- C9: the question answerer never propagates an LLM exception.  With the
LLM collaborator raising (modelled as `.error e`), the free-text resolver
returns the canned `fallback_answer` and the choice resolver returns the
first-option default; both still return a plain value (the whole per-question
block of `handle_all_questions` additionally wraps in a `try/except` that
logs and continues, lines 979-981, 1057-1059, 1147-1149). -/
theorem answerer_never_raises (c : QACache) (label ctx e : String)
    (o : String) (os : List String)
    (hfree : (get_answer c (lowerTrim label)).getD "" = "")
    (hchoice : (get_answer c (choiceKey label (o :: os))).getD "" = "") :
    resolveFreeText c (.error e) label ctx =
      (fallback_answer label,
       save_answer c (lowerTrim label) (fallback_answer label) ctx, true, true) ∧
    resolveChoice c (.error e) label (o :: os) ctx =
      some (o, save_answer c (choiceKey label (o :: os)) o ctx, true, true) := by
  constructor
  · simp [resolveFreeText, hfree]
  · simp [resolveChoice, hchoice]

/-- C9 witness: an erring LLM on a fresh cache yields the generic canned
fallback for a free-text question. -/
theorem answerer_never_raises_witness :
    resolveFreeText [] (.error "rate limited") "Anything else we should know?" "Acme - PM" =
      (fallback_answer "Anything else we should know?",
       save_answer [] (lowerTrim "Anything else we should know?")
         (fallback_answer "Anything else we should know?") "Acme - PM", true, true) :=
  (answerer_never_raises [] "Anything else we should know?" "Acme - PM" "rate limited"
    "Alpha" ["Beta"] (by decide) (by decide)).1

/-- C10: cache lookup is not exact-key-only.  With `"why join the company"`
and `"why leave your job"` stored (in that order), looking up the distinct,
never-saved key `"why apply here"` misses exactly and then fuzzy-matches on
the shared phrase `"why"`, returning the first similar entry's answer. -/
theorem qa_fuzzy_cross_key_lookup :
    get_answer
      (save_answer (save_answer [] "why join the company" "A" "") "why leave your job" "B" "")
      "why apply here" = some "A" ∧
    cacheLookup
      (save_answer (save_answer [] "why join the company" "A" "") "why leave your job" "B" "")
      (lowerTrim "why apply here") = none ∧
    lowerTrim "why apply here" ≠ lowerTrim "why join the company" := by decide

end AutoApply
